import Mathlib

/-!
Shallow embedding of `src/main.rs` of the `legume_csv` repository (a CSV to
beancount ledger converter), together with theorems settling the
specification's claims about its row-to-transaction pipeline.

The embedding covers the template-driven record transformation engine:
the field renderer (the `handlebars` engine as configured by `main`, lines
258-259: default settings plus a no-escape function, strict mode NOT
enabled), the value parsers `incomplete_amount_from_string` (lines 125-142)
and `account_from_string` (lines 144-157), and the transaction builder
`build_posting` (lines 159-195) / `build_transaction` (lines 197-240).
CSV rows are `List String`, configurations are plain structures, machine
integers are `Nat`/`Int`, and fallible code returns `Option`/`Except`.
-/

namespace LegumeCsv

/-! ## Data model (beancount_core value types, as used by main.rs) -/

/-- Modelled from `rust_decimal::Decimal`: an arbitrary-precision decimal
number kept as an integer mantissa and a decimal scale (number of digits
after the point), so that the value is `mantissa / 10 ^ scale`.  The 96-bit
mantissa bound of the Rust crate is not modelled; no input in this
development comes close to it. -/
structure Decimal where
  mantissa : Int
  scale : Nat
deriving DecidableEq

/-- Modelled from `beancount_core::IncompleteAmount`: an optional decimal
value together with an optional currency code. -/
structure IncompleteAmount where
  num : Option Decimal
  currency : Option String
deriving DecidableEq

/-- Modelled from `beancount_core::account_types::AccountType`: the closed
set of five account root types matched in `account_from_string`. -/
inductive AccountType
  | assets
  | liabilities
  | equity
  | income
  | expenses
deriving DecidableEq

/-- Modelled from `beancount_core::Account`: a root type plus the ordered
colon-separated path parts. -/
structure Account where
  ty : AccountType
  parts : List String
deriving DecidableEq

/-- Modelled from `beancount_core::Flag`: the transaction/posting marker. -/
inductive Flag
  | okay
  | warning
  | other (s : String)
deriving DecidableEq

/-- Modelled from beancount_core's `From` impl for `Flag`: `"*"` is the
completed marker, `"!"` the warning/incomplete marker, anything else is
kept verbatim. -/
def Flag.fromString (s : String) : Flag :=
  if s = "*" then .okay else if s = "!" then .warning else .other s

/-- Modelled from `chrono::NaiveDate`: a calendar date. -/
structure NaiveDate where
  year : Int
  month : Nat
  day : Nat
deriving DecidableEq

/-- Modelled from `beancount_core::Posting` restricted to the fields
`build_posting` sets (`account`, `flag`, `units`, `price`); the remaining
builder fields (`cost`, metadata) are left at their `None` defaults by the
source and are omitted. -/
structure Posting where
  account : Account
  flag : Option Flag
  units : IncompleteAmount
  price : Option IncompleteAmount
deriving DecidableEq

/-- Modelled from `beancount_core::Transaction` restricted to the fields
`build_transaction` sets (date, flag, payee, narration, postings); builder
fields left at their defaults (tags, links, metadata) are omitted. -/
structure Transaction where
  date : NaiveDate
  flag : Flag
  payee : Option String
  narration : String
  postings : List Posting
deriving DecidableEq

/-! ## Errors (main.rs lines 24-35) -/

/-- Modelled from `handlebars::TemplateRenderError` as far as the templates
of this embedding can produce it: `malformed` for a template syntax error
(an unclosed or empty placeholder), `badVariable` for a render-time error
(placeholder content that is not a plain variable name). -/
inductive TemplateError
  | malformed
  | badVariable
deriving DecidableEq

/-- The `TransactionError` enum of main.rs lines 24-35.  `HandleBarError`
wraps the template engine's error (the `#[from]` conversion). -/
inductive TransactionError
  | invalidAccount
  | handleBarError (e : TemplateError)
  | invalidAmount
  | dateParseError
deriving DecidableEq

/-! ## Configuration (main.rs lines 71-122) -/

/-- The `YamlPosting` struct of main.rs lines 101-108.  Note that `cost` is
deserialized but never read by `build_posting`. -/
structure YamlPosting where
  flag : Option String
  account : String
  amount : Option String
  cost : Option String
  price : Option String
deriving DecidableEq

/-- The `TransactionTemplate` struct of main.rs lines 114-122.  The serde
default of `flag` (the string `"!"`) is applied at deserialization time,
which is outside this core; `flag` is therefore always present here. -/
structure TransactionTemplate where
  date : String
  flag : String
  payee : Option String
  narration : String
  postings : List YamlPosting
deriving DecidableEq

/-- The `Settings` struct of main.rs lines 90-99. -/
structure Settings where
  delimiter : Char
  quote : Char
  skip : Nat
  date_format : String
deriving DecidableEq

/-- The `Configuration` struct of main.rs lines 72-79.  The `input` hash map
is embedded as an association list with distinct keys; `build_transaction`
only iterates it and looks names up, for which the order is irrelevant. -/
structure Configuration where
  input : List (String × Nat)
  settings : Settings
  output : TransactionTemplate
deriving DecidableEq

/-! ## Field renderer

Modelled from the `handlebars` crate's `render_template` as invoked by
main.rs: the engine is built by `Handlebars::new()` with only
`register_escape_fn(no_escape)` (lines 258-259), so escaping is disabled
(substitution is verbatim) and strict mode is OFF — a variable missing
from the data map renders as the empty string, it is not an error.  The
model covers simple `\x7b\x7bname\x7d\x7d` interpolation: literal text is
copied; a placeholder's content is trimmed and looked up in the data map
(missing names give `""`); an unclosed or empty placeholder is a template
syntax error and content that is not a single name (it still contains
whitespace after trimming, as in a helper call) is a render error. -/

/-- Whitespace as trimmed around a placeholder name. -/
def isTemplateWs (c : Char) : Bool :=
  c = ' ' || c = '\t' || c = '\n' || c = '\r'

/-- Trim placeholder whitespace from both ends of a character list. -/
def trimChars (l : List Char) : List Char :=
  ((l.dropWhile isTemplateWs).reverse.dropWhile isTemplateWs).reverse

/-- One pass over the template: in text mode (first argument `none`) copy
characters and enter a placeholder at `\x7b\x7b`; in placeholder mode
(first argument `some acc`) accumulate the content until `\x7d\x7d`, then
substitute.  Running out of input inside a placeholder is a syntax error. -/
def renderGo (ctx : List (String × String)) :
    Option (List Char) → List Char → Except TemplateError (List Char)
  | none, [] => .ok []
  | none, '{' :: '{' :: rest => renderGo ctx (some []) rest
  | none, c :: rest => (renderGo ctx none rest).map (fun t => c :: t)
  | some _, [] => .error .malformed
  | some acc, '}' :: '}' :: rest =>
    let name := trimChars acc
    if name.isEmpty then .error .malformed
    else if name.any isTemplateWs then .error .badVariable
    else
      (renderGo ctx none rest).map
        (fun t => ((ctx.lookup (String.mk name)).getD "").data ++ t)
  | some acc, c :: rest => renderGo ctx (some (acc ++ [c])) rest

/-- The renderer: `handlebars.render_template(tpl, data)` with the engine
of main.rs (no escaping, non-strict). -/
def renderTemplate (tpl : String) (ctx : List (String × String)) :
    Except TemplateError String :=
  (renderGo ctx none tpl.data).map String.mk

/-- The `#[from]` conversion of a template engine error into
`TransactionError::HandleBarError` applied by the `?` operator. -/
def liftTemplate {α : Type} : Except TemplateError α → Except TransactionError α
  | .ok a => .ok a
  | .error e => .error (.handleBarError e)

/-! ## Value parsers -/

/-- Rust's `str::split` on a single character: `n` separators give `n + 1`
pieces, the empty string gives one empty piece. -/
def splitChar (sep : Char) : List Char → List (List Char)
  | [] => [[]]
  | c :: rest =>
    match splitChar sep rest with
    | [] => [[]]
    | x :: xs => if c = sep then [] :: x :: xs else (c :: x) :: xs

/-- The `replace(',', ".")` of main.rs line 130, character by character. -/
def commaToDot (c : Char) : Char :=
  if c = ',' then '.' else c

/-- Digit scanner for `rust_decimal` parsing: accumulates the mantissa, the
count of digits after the point and the total digit count; `'.'` may occur
at most once and `'_'` separators are skipped; any other character is a
parse failure. -/
def decGo : List Char → Bool → Nat → Nat → Nat → Option (Nat × Nat × Nat)
  | [], _, m, sc, nd => some (m, sc, nd)
  | c :: rest, seenPt, m, sc, nd =>
    if c.isDigit then
      decGo rest seenPt (10 * m + (c.toNat - 48)) (if seenPt then sc + 1 else sc) (nd + 1)
    else if c = '.' then
      if seenPt then none else decGo rest true m sc nd
    else if c = '_' then
      decGo rest seenPt m sc nd
    else
      none

/-- Modelled from `str::parse::<rust_decimal::Decimal>` on the plain grammar
the tool feeds it: an optional sign, then decimal digits with at most one
point and optional `'_'` separators; at least one digit is required.
Mantissa overflow (96 bits in the Rust crate) is not modelled. -/
def parseDecimal (l : List Char) : Option Decimal :=
  let p : Bool × List Char :=
    match l with
    | '-' :: t => (true, t)
    | '+' :: t => (false, t)
    | t => (false, t)
  match decGo p.2 false 0 0 0 with
  | none => none
  | some (m, sc, nd) =>
    if nd = 0 then none
    else some { mantissa := if p.1 then -(m : Int) else (m : Int), scale := sc }

/-- The function `incomplete_amount_from_string` of main.rs lines 125-142:
split on `' '`, parse the first token as a decimal after replacing every
comma with a period, take the second token as the currency; missing token
or failed decimal parse is `InvalidAmount`.  (Tokens after the second are
never read: the iterator is only advanced twice.) -/
def incomplete_amount_from_string (s : String) :
    Except TransactionError IncompleteAmount :=
  match splitChar ' ' s.data with
  | [] => .error .invalidAmount
  | v :: rest =>
    match parseDecimal (v.map commaToDot) with
    | none => .error .invalidAmount
    | some d =>
      match rest with
      | [] => .error .invalidAmount
      | c :: _ => .ok { num := some d, currency := some (String.mk c) }

/-- The keyword match of main.rs lines 147-154 (case-sensitive, exact). -/
def accountTypeOf (s : String) : Option AccountType :=
  if s = "Assets" then some .assets
  else if s = "Liabilities" then some .liabilities
  else if s = "Equity" then some .equity
  else if s = "Income" then some .income
  else if s = "Expenses" then some .expenses
  else none

/-- The function `account_from_string` of main.rs lines 144-157: split on
`':'`, match the first segment against the five root keywords, keep the
remaining segments verbatim as the account's parts. -/
def account_from_string (s : String) : Except TransactionError Account :=
  match splitChar ':' s.data with
  | [] => .error .invalidAccount
  | first :: rest =>
    match accountTypeOf (String.mk first) with
    | none => .error .invalidAccount
    | some ty => .ok { ty := ty, parts := rest.map String.mk }

/-! ## Date parsing

Modelled from `chrono::NaiveDate::parse_from_str` for the format specifiers
`%Y`, `%m`, `%d` and `%%` plus literal characters; a format holding any
other specifier, trailing input, a missing or contradictory field, or an
invalid calendar date is a parse error.  This is the strptime subset the
tool's configurations exercise. -/

/-- Take up to `max` leading decimal digits. -/
def takeDigits : Nat → List Char → List Char × List Char
  | 0, l => ([], l)
  | _ + 1, [] => ([], [])
  | n + 1, c :: rest =>
    if c.isDigit then
      match takeDigits n rest with
      | (ds, r) => (c :: ds, r)
    else ([], c :: rest)

/-- The numeric value of a digit list. -/
def digitsToNat (l : List Char) : Nat :=
  l.foldl (fun acc c => 10 * acc + (c.toNat - 48)) 0

/-- Parse a number of at most `maxW` digits (at least one). -/
def parseNum (maxW : Nat) (l : List Char) : Option (Nat × List Char) :=
  match takeDigits maxW l with
  | ([], _) => none
  | (ds, rest) => some (digitsToNat ds, rest)

/-- The fields collected while running a format (chrono's `Parsed`). -/
structure DateParts where
  year : Option Int := none
  month : Option Nat := none
  day : Option Nat := none
deriving DecidableEq

/-- Run a strptime format over the input, collecting date fields; a field
set twice must be set to the same value (chrono's consistency check). -/
def runFormat : List Char → List Char → DateParts → Option DateParts
  | [], [], p => some p
  | [], _ :: _, _ => none
  | '%' :: 'Y' :: fr, inp, p =>
    let q : Bool × List Char :=
      match inp with
      | '-' :: t => (true, t)
      | t => (false, t)
    match parseNum 4 q.2 with
    | none => none
    | some (n, rest) =>
      let y : Int := if q.1 then -(n : Int) else (n : Int)
      match p.year with
      | none => runFormat fr rest { p with year := some y }
      | some y0 => if y0 = y then runFormat fr rest p else none
  | '%' :: 'm' :: fr, inp, p =>
    match parseNum 2 inp with
    | none => none
    | some (n, rest) =>
      match p.month with
      | none => runFormat fr rest { p with month := some n }
      | some m0 => if m0 = n then runFormat fr rest p else none
  | '%' :: 'd' :: fr, inp, p =>
    match parseNum 2 inp with
    | none => none
    | some (n, rest) =>
      match p.day with
      | none => runFormat fr rest { p with day := some n }
      | some d0 => if d0 = n then runFormat fr rest p else none
  | '%' :: '%' :: fr, inp, p =>
    match inp with
    | '%' :: ir => runFormat fr ir p
    | _ => none
  | '%' :: _, _, _ => none
  | _ :: _, [], _ => none
  | c :: fr, i :: ir, p => if c = i then runFormat fr ir p else none

/-- The Gregorian leap year rule (chrono). -/
def isLeapYear (y : Int) : Bool :=
  (y % 4 = 0 && y % 100 ≠ 0) || y % 400 = 0

/-- Days in a month of a given year (chrono's calendar validation). -/
def daysInMonth (y : Int) (m : Nat) : Nat :=
  if m = 2 then (if isLeapYear y then 29 else 28)
  else if m = 4 ∨ m = 6 ∨ m = 9 ∨ m = 11 then 30
  else 31

/-- Modelled from `chrono::NaiveDate::parse_from_str s fmt` (see the section
comment for the covered subset): all three fields must be produced and form
a valid calendar date. -/
def NaiveDate.parse_from_str (s : String) (fmt : String) : Option NaiveDate :=
  match runFormat fmt.data s.data {} with
  | none => none
  | some p =>
    match p.year, p.month, p.day with
    | some y, some m, some d =>
      if 1 ≤ m ∧ m ≤ 12 then
        if 1 ≤ d ∧ d ≤ daysInMonth y m then some { year := y, month := m, day := d }
        else none
      else none
    | _, _, _ => none

/-! ## Transaction builder (main.rs lines 159-240)

The sub-expressions of `build_posting` and `build_transaction` are given
their own definitions, one per `let` binding / field expression of the
source, evaluated in source order.  `Except.error` propagation models the
`?` operator; the outer `Option` of `build_transaction` models the panic
of the `record[*value]` index (the csv crate's `Index` impl panics on an
out-of-bounds column), which is NOT an error value: `none` means the
process aborts with a panic. -/

/-- The posting's `units` (main.rs lines 166-173): render and parse the
`amount` template when present, otherwise `IncompleteAmount::builder().build()`
(no value, no currency). -/
def renderedUnits (pt : YamlPosting) (data : List (String × String)) :
    Except TransactionError IncompleteAmount :=
  match pt.amount with
  | none => .ok { num := none, currency := none }
  | some t =>
    match liftTemplate (renderTemplate t data) with
    | .error e => .error e
    | .ok s => incomplete_amount_from_string s

/-- The posting's `flag` (main.rs lines 174-179): render the `flag`
template when present and convert via `Flag::from`. -/
def renderedPostingFlag (pt : YamlPosting) (data : List (String × String)) :
    Except TransactionError (Option Flag) :=
  match pt.flag with
  | none => .ok none
  | some t =>
    match liftTemplate (renderTemplate t data) with
    | .error e => .error e
    | .ok s => .ok (some (Flag.fromString s))

/-- The posting's `price` (main.rs lines 181-187): render and parse the
`price` template when present. -/
def renderedPrice (pt : YamlPosting) (data : List (String × String)) :
    Except TransactionError (Option IncompleteAmount) :=
  match pt.price with
  | none => .ok none
  | some t =>
    match liftTemplate (renderTemplate t data) with
    | .error e => .error e
    | .ok s =>
      match incomplete_amount_from_string s with
      | .error e => .error e
      | .ok a => .ok (some a)

/-- The function `build_posting` of main.rs lines 159-195: account (render,
then parse), units, flag and price in source order, first error wins; note
that `pt.cost` is never read. -/
def build_posting (pt : YamlPosting) (data : List (String × String)) :
    Except TransactionError Posting :=
  match liftTemplate (renderTemplate pt.account data) with
  | .error e => .error e
  | .ok s =>
    match account_from_string s with
    | .error e => .error e
    | .ok account =>
      match renderedUnits pt data with
      | .error e => .error e
      | .ok units =>
        match renderedPostingFlag pt data with
        | .error e => .error e
        | .ok flag =>
          match renderedPrice pt data with
          | .error e => .error e
          | .ok price => .ok { account := account, flag := flag, units := units, price := price }

/-- The `data` map of main.rs lines 202-206: for every configured
`(name, column)` pair look the column up in the record.  The Rust code
indexes with `record[*value]`, which panics when the record is shorter
than the index; `none` models that panic (`collect` drives the whole
iterator, so every configured column is accessed). -/
def buildRowContext (input : List (String × Nat)) (record : List String) :
    Option (List (String × String)) :=
  match input with
  | [] => some []
  | p :: rest =>
    match record[p.2]? with
    | none => none
    | some v =>
      match buildRowContext rest record with
      | none => none
      | some ctx => some ((p.1, v) :: ctx)

/-- The transaction's `date` (main.rs lines 208-211): render the date
template, then parse it with the configured `date_format`. -/
def renderedDate (config : Configuration) (data : List (String × String)) :
    Except TransactionError NaiveDate :=
  match liftTemplate (renderTemplate config.output.date data) with
  | .error e => .error e
  | .ok s =>
    match NaiveDate.parse_from_str s config.settings.date_format with
    | none => .error .dateParseError
    | some d => .ok d

/-- The transaction's `payee` (main.rs lines 213-220): render the payee
template when present; `filter(not is_empty)` turns an empty rendering
into an absent payee. -/
def renderedPayee (config : Configuration) (data : List (String × String)) :
    Except TransactionError (Option String) :=
  match config.output.payee with
  | none => .ok none
  | some t =>
    match liftTemplate (renderTemplate t data) with
    | .error e => .error e
    | .ok s => .ok (if s = "" then none else some s)

/-- The transaction's `flag` (main.rs line 222). -/
def renderedFlag (config : Configuration) (data : List (String × String)) :
    Except TransactionError Flag :=
  match liftTemplate (renderTemplate config.output.flag data) with
  | .error e => .error e
  | .ok s => .ok (Flag.fromString s)

/-- The transaction's `narration` (main.rs line 224). -/
def renderedNarration (config : Configuration) (data : List (String × String)) :
    Except TransactionError String :=
  liftTemplate (renderTemplate config.output.narration data)

/-- The postings loop of main.rs lines 226-231:
`collect::<Result<Vec<_>, _>>` over `build_posting`, first error wins. -/
def buildPostings (pts : List YamlPosting) (data : List (String × String)) :
    Except TransactionError (List Posting) :=
  match pts with
  | [] => .ok []
  | pt :: rest =>
    match build_posting pt data with
    | .error e => .error e
    | .ok p =>
      match buildPostings rest data with
      | .error e => .error e
      | .ok ps => .ok (p :: ps)

/-- The function `build_transaction` of main.rs lines 197-240: build the
row context (panic on a short row, modelled by `none`), then date, payee,
flag, narration and the postings, in source order, first error wins. -/
def build_transaction (record : List String) (config : Configuration) :
    Option (Except TransactionError Transaction) :=
  match buildRowContext config.input record with
  | none => none
  | some data =>
    some (
      match renderedDate config data with
      | .error e => .error e
      | .ok date =>
        match renderedPayee config data with
        | .error e => .error e
        | .ok payee =>
          match renderedFlag config data with
          | .error e => .error e
          | .ok flag =>
            match renderedNarration config data with
            | .error e => .error e
            | .ok narration =>
              match buildPostings config.output.postings data with
              | .error e => .error e
              | .ok postings =>
                .ok { date := date, flag := flag, payee := payee,
                      narration := narration, postings := postings })

/-! ## Decidable equality for `Except`, used to evaluate results -/

instance instDecEqExcept {ε α : Type} [DecidableEq ε] [DecidableEq α] :
    DecidableEq (Except ε α) := fun a b =>
  match a, b with
  | .error e, .error f =>
    if h : e = f then isTrue (congrArg Except.error h)
    else isFalse (fun hh => h (Except.error.inj hh))
  | .ok x, .ok y =>
    if h : x = y then isTrue (congrArg Except.ok h)
    else isFalse (fun hh => h (Except.ok.inj hh))
  | .error _, .ok _ => isFalse (fun hh => Except.noConfusion hh)
  | .ok _, .error _ => isFalse (fun hh => Except.noConfusion hh)

/-! ## Concrete instances used by witnesses and counterexamples -/

/-- Settings with the strptime format `%Y-%m-%d`; delimiter/quote/skip are
irrelevant to `build_transaction`. -/
def settingsYmd : Settings :=
  { delimiter := ',', quote := 'q', skip := 0, date_format := "%Y-%m-%d" }

/-- A configuration whose input mapping references column 1. -/
def cfgC2 : Configuration :=
  { input := [("a", 1)]
    settings := settingsYmd
    output := { date := "2023-01-15", flag := "!", payee := none,
                narration := "n", postings := [] } }

/-- A posting template whose account template renders to the invalid
account `Foo` (and whose amount template would also fail, were it
reached). -/
def ptC6 : YamlPosting :=
  { flag := none, account := "Foo", amount := some "bad", cost := none, price := none }

/-- A configuration whose only posting fails with `InvalidAccount`. -/
def cfgC6 : Configuration :=
  { input := []
    settings := settingsYmd
    output := { date := "2023-01-15", flag := "!", payee := none,
                narration := "n", postings := [ptC6] } }

/-- Two posting templates identical except for `cost`. -/
def ptCostA : YamlPosting :=
  { flag := none, account := "Assets:Bank", amount := some "4.50 USD",
    cost := none, price := none }

/-- Same as `ptCostA` with a `cost` value present. -/
def ptCostB : YamlPosting :=
  { flag := none, account := "Assets:Bank", amount := some "4.50 USD",
    cost := some "irrelevant", price := none }

/-- A configuration whose payee template renders the (empty) field `p`. -/
def cfgC8 : Configuration :=
  { input := [("p", 0)]
    settings := settingsYmd
    output := { date := "2023-01-15", flag := "!", payee := some "\x7b\x7bp\x7d\x7d",
                narration := "n", postings := [] } }

/-- The transaction `cfgC8` builds from the row `[""]`. -/
def tC8 : Transaction :=
  { date := { year := 2023, month := 1, day := 15 }, flag := Flag.warning,
    payee := none, narration := "n", postings := [] }

/-- A posting template with no amount template. -/
def ptC9 : YamlPosting :=
  { flag := none, account := "Assets:Cash", amount := none, cost := none, price := none }

/-- The posting `ptC9` builds: incomplete units. -/
def pC9 : Posting :=
  { account := { ty := AccountType.assets, parts := ["Cash"] }, flag := none,
    units := { num := none, currency := none }, price := none }

/-! ## C3: amount parser examples -/

/-- C3: the amount parser maps `"12,50 EUR"` and `"12.50 EUR"` to the same
amount, value 12.50 (mantissa 1250, scale 2) with currency `"EUR"` — the
comma in the numeric token is replaced by a period before decimal parsing —
and returns `InvalidAmount` both for `"abc"` (the single token fails the
decimal parse) and for `"12.50"` (no currency token after the value). -/
theorem c3_amount_parser_examples :
    incomplete_amount_from_string "12,50 EUR" =
      Except.ok { num := some { mantissa := 1250, scale := 2 }, currency := some "EUR" }
    ∧ incomplete_amount_from_string "12.50 EUR" =
      Except.ok { num := some { mantissa := 1250, scale := 2 }, currency := some "EUR" }
    ∧ incomplete_amount_from_string "abc" = Except.error TransactionError.invalidAmount
    ∧ incomplete_amount_from_string "12.50" = Except.error TransactionError.invalidAmount :=
  ⟨rfl, rfl, rfl, rfl⟩

/-! ## C4: account parser -/

/-- C4: `"Assets:Bank:Checking"` parses to root `Assets` with parts
`["Bank", "Checking"]`; `"Foo:Bar"` and `""` give `InvalidAccount`; and in
general the parser fails (necessarily with `InvalidAccount`) exactly when
the first colon-separated segment is not a case-sensitive exact match of
one of the five root keywords — the "no segments at all" disjunct of the
claim is vacuous, since splitting never yields zero segments. -/
theorem c4_account_parsing (s : String) :
    (account_from_string "Assets:Bank:Checking" =
      Except.ok { ty := AccountType.assets, parts := ["Bank", "Checking"] })
    ∧ (account_from_string "Foo:Bar" = Except.error TransactionError.invalidAccount)
    ∧ (account_from_string "" = Except.error TransactionError.invalidAccount)
    ∧ (account_from_string s = Except.error TransactionError.invalidAccount ↔
        ∀ first rest, splitChar ':' s.data = first :: rest →
          accountTypeOf (String.mk first) = none) := by
  refine ⟨rfl, rfl, rfl, ?_⟩
  unfold account_from_string
  cases h : splitChar ':' s.data with
  | nil =>
    constructor
    · intro _ first rest hfr
      exact absurd hfr (by simp)
    · intro _
      rfl
  | cons first rest =>
    cases ha : accountTypeOf (String.mk first) with
    | none =>
      simp only [ha]
      constructor
      · intro _ f r hfr
        obtain ⟨rfl, rfl⟩ : f = first ∧ r = rest := by
          constructor <;> injection hfr <;> simp_all
        exact ha
      · intro _
        trivial
    | some ty =>
      simp only [ha]
      constructor
      · intro hcontra
        exact Except.noConfusion hcontra
      · intro hall
        exact absurd (hall first rest rfl) (by rw [ha]; simp)

/-! ## C10: empty path segments are accepted -/

/-- C10: whenever the first colon-separated segment is one of the five root
keywords the account parser succeeds, keeping the remaining segments —
empty or not — verbatim; in particular `"Assets:"` yields parts `[""]` and
`"Assets::Bank"` yields parts `["", "Bank"]`. -/
theorem c10_empty_segments_accepted (s : String) (first : List Char)
    (rest : List (List Char)) (ty : AccountType)
    (hsplit : splitChar ':' s.data = first :: rest)
    (hty : accountTypeOf (String.mk first) = some ty) :
    account_from_string s = Except.ok { ty := ty, parts := rest.map String.mk }
    ∧ account_from_string "Assets:" =
        Except.ok { ty := AccountType.assets, parts := [""] }
    ∧ account_from_string "Assets::Bank" =
        Except.ok { ty := AccountType.assets, parts := ["", "Bank"] } := by
  refine ⟨?_, rfl, rfl⟩
  unfold account_from_string
  rw [hsplit]
  simp only [hty]

/-- C10 witness: the general part applied to the concrete input `"Assets:"`. -/
theorem c10_witness :
    account_from_string "Assets:" =
      Except.ok { ty := AccountType.assets, parts := [""] } :=
  (c10_empty_segments_accepted "Assets:" "Assets".data [[]] AccountType.assets rfl rfl).1

/-! ## C5: the currency is the second space-separated token, not the rest -/

/-- C5 counterexample: for the input `"1.00 EUR X"` the code takes only the
token between the first and second space as the currency: the parse
succeeds with currency `"EUR"`, not `"EUR X"` as the claim states. -/
theorem c5_counterexample :
    incomplete_amount_from_string "1.00 EUR X" =
      Except.ok { num := some { mantissa := 100, scale := 2 }, currency := some "EUR" }
    ∧ incomplete_amount_from_string "1.00 EUR X" ≠
      Except.ok { num := some { mantissa := 100, scale := 2 }, currency := some "EUR X" } :=
  ⟨rfl, by decide⟩

/-- C5 amended: the parser splits on every space; when the split yields at
least two tokens and the first token (commas replaced by periods) parses as
a decimal, the result takes the second token as the currency and ignores
all later tokens. -/
theorem c5_second_token_is_currency (s : String) (v c : List Char)
    (rest : List (List Char)) (d : Decimal)
    (hsplit : splitChar ' ' s.data = v :: c :: rest)
    (hparse : parseDecimal (v.map commaToDot) = some d) :
    incomplete_amount_from_string s =
      Except.ok { num := some d, currency := some (String.mk c) } := by
  unfold incomplete_amount_from_string
  rw [hsplit]
  simp only [hparse]

/-- C5 witness: the amended theorem applied to `"1.00 EUR Y"`. -/
theorem c5_witness :
    incomplete_amount_from_string "1.00 EUR Y" =
      Except.ok { num := some { mantissa := 100, scale := 2 }, currency := some "EUR" } :=
  c5_second_token_is_currency "1.00 EUR Y" "1.00".data "EUR".data ["Y".data]
    { mantissa := 100, scale := 2 } rfl rfl

/-! ## C2: a short row panics -/

/-- When some configured pair references a column at or beyond the record's
length, building the row context hits the panicking index (modelled by
`none`): `collect` drives the whole iterator, so any configured
out-of-bounds column aborts. -/
lemma buildRowContext_oob (input : List (String × Nat)) (record : List String)
    (p : String × Nat) (hmem : p ∈ input) (hlen : record.length ≤ p.2) :
    buildRowContext input record = none := by
  induction input with
  | nil => cases hmem
  | cons q rest ih =>
    unfold buildRowContext
    rcases List.mem_cons.mp hmem with rfl | hmem2
    · rw [List.getElem?_eq_none hlen]
    · cases hq : record[q.2]? with
      | none => rfl
      | some v => simp only [ih hmem2]

/-- C2 counterexample: with the input mapping `[("a", 1)]` and the
one-column row `["x"]`, `build_transaction` evaluates to `none` — the
model's image of the `record[*value]` index PANIC — rather than to
`some (Except.error _)`: contrary to the claim, no error value is
returned, the process crashes. -/
theorem c2_counterexample : build_transaction ["x"] cfgC2 = none := rfl

/-- C2 amended: a row shorter than some referenced column index makes
`build_transaction` hit the panicking `record[index]` (modelled `none`):
the run aborts by an index-out-of-bounds panic — a crash, not a returned
error value — and no transaction is produced for that row (or, the process
being dead, any later row). -/
theorem c2_short_row_aborts (record : List String) (config : Configuration)
    (h : ∃ p ∈ config.input, record.length ≤ p.2) :
    build_transaction record config = none := by
  obtain ⟨p, hmem, hlen⟩ := h
  unfold build_transaction
  rw [buildRowContext_oob config.input record p hmem hlen]

/-- C2 witness: the amended theorem applied to the empty row under
`cfgC2`. -/
theorem c2_witness : build_transaction [] cfgC2 = none :=
  c2_short_row_aborts [] cfgC2 ⟨("a", 1), by simp [cfgC2], by simp⟩

/-! ## C9: a posting with no amount template has incomplete units -/

/-- C9: when the posting template has no `amount` template, a successfully
built posting has the untouched builder default for its units: no numeric
value and no currency (`IncompleteAmount` with both fields `none`) — in
particular not a zero amount, whose `num` field would be `some` value. -/
theorem c9_no_amount_template_incomplete_units (pt : YamlPosting)
    (data : List (String × String)) (p : Posting)
    (hnone : pt.amount = none)
    (hok : build_posting pt data = Except.ok p) :
    p.units = { num := none, currency := none } := by
  have hu : renderedUnits pt data = Except.ok { num := none, currency := none } := by
    unfold renderedUnits
    rw [hnone]
  unfold build_posting at hok
  cases h1 : liftTemplate (renderTemplate pt.account data) with
  | error e => simp only [h1] at hok; exact Except.noConfusion hok
  | ok s =>
    simp only [h1] at hok
    cases h2 : account_from_string s with
    | error e => simp only [h2] at hok; exact Except.noConfusion hok
    | ok account =>
      simp only [h2, hu] at hok
      cases h3 : renderedPostingFlag pt data with
      | error e => simp only [h3] at hok; exact Except.noConfusion hok
      | ok flag =>
        simp only [h3] at hok
        cases h4 : renderedPrice pt data with
        | error e => simp only [h4] at hok; exact Except.noConfusion hok
        | ok price =>
          simp only [h4] at hok
          obtain rfl := Except.ok.inj hok
          rfl

/-- C9 witness: the theorem applied to the amount-less template `ptC9`,
whose built posting is `pC9`. -/
theorem c9_witness :
    ptC9.amount = none
    ∧ build_posting ptC9 [] = Except.ok pC9
    ∧ pC9.units = { num := none, currency := none } :=
  ⟨rfl, rfl, c9_no_amount_template_incomplete_units ptC9 [] pC9 rfl rfl⟩

/-! ## C7: the cost field is never read -/

/-- Postings built from templates that agree on `flag`, `account`, `amount`
and `price` are equal: `build_posting` never reads `cost`. -/
lemma build_posting_congr (pt1 pt2 : YamlPosting) (data : List (String × String))
    (hf : pt1.flag = pt2.flag) (ha : pt1.account = pt2.account)
    (ham : pt1.amount = pt2.amount) (hp : pt1.price = pt2.price) :
    build_posting pt1 data = build_posting pt2 data := by
  unfold build_posting renderedUnits renderedPostingFlag renderedPrice
  rw [hf, ha, ham, hp]

/-- Posting lists that agree pointwise except possibly on `cost` build the
same result. -/
lemma buildPostings_congr (data : List (String × String))
    {l1 l2 : List YamlPosting}
    (h : List.Forall₂ (fun p q : YamlPosting =>
        p.flag = q.flag ∧ p.account = q.account ∧ p.amount = q.amount ∧ p.price = q.price) l1 l2) :
    buildPostings l1 data = buildPostings l2 data := by
  induction h with
  | nil => rfl
  | cons hpq hrest ih =>
    unfold buildPostings
    rw [build_posting_congr _ _ data hpq.1 hpq.2.1 hpq.2.2.1 hpq.2.2.2, ih]

/-- Configurations that agree everywhere except possibly on the postings'
`cost` values build the same result for every record. -/
lemma build_transaction_congr (record : List String) (cfg1 cfg2 : Configuration)
    (hin : cfg1.input = cfg2.input) (hset : cfg1.settings = cfg2.settings)
    (hdate : cfg1.output.date = cfg2.output.date)
    (hflag : cfg1.output.flag = cfg2.output.flag)
    (hpayee : cfg1.output.payee = cfg2.output.payee)
    (hnarr : cfg1.output.narration = cfg2.output.narration)
    (hpost : List.Forall₂ (fun p q : YamlPosting =>
        p.flag = q.flag ∧ p.account = q.account ∧ p.amount = q.amount ∧ p.price = q.price)
        cfg1.output.postings cfg2.output.postings) :
    build_transaction record cfg1 = build_transaction record cfg2 := by
  have hD : ∀ data, renderedDate cfg1 data = renderedDate cfg2 data := by
    intro data
    unfold renderedDate
    rw [hdate, hset]
  have hP : ∀ data, renderedPayee cfg1 data = renderedPayee cfg2 data := by
    intro data
    unfold renderedPayee
    rw [hpayee]
  have hF : ∀ data, renderedFlag cfg1 data = renderedFlag cfg2 data := by
    intro data
    unfold renderedFlag
    rw [hflag]
  have hN : ∀ data, renderedNarration cfg1 data = renderedNarration cfg2 data := by
    intro data
    unfold renderedNarration
    rw [hnarr]
  unfold build_transaction
  rw [hin]
  cases hctx : buildRowContext cfg2.input record with
  | none => rfl
  | some data =>
    simp only [hD data, hP data, hF data, hN data, buildPostings_congr data hpost]

/-- C7: neither `build_posting` nor `build_transaction` depends on any
posting template's `cost` field — two posting templates (respectively two
configurations) identical except for their `cost` values, present or
absent, build identical results on every row context (respectively every
record). -/
theorem c7_cost_never_wired :
    (∀ (pt1 pt2 : YamlPosting) (data : List (String × String)),
      pt1.flag = pt2.flag → pt1.account = pt2.account →
      pt1.amount = pt2.amount → pt1.price = pt2.price →
      build_posting pt1 data = build_posting pt2 data)
    ∧ (∀ (record : List String) (cfg1 cfg2 : Configuration),
      cfg1.input = cfg2.input → cfg1.settings = cfg2.settings →
      cfg1.output.date = cfg2.output.date → cfg1.output.flag = cfg2.output.flag →
      cfg1.output.payee = cfg2.output.payee →
      cfg1.output.narration = cfg2.output.narration →
      List.Forall₂ (fun p q : YamlPosting =>
          p.flag = q.flag ∧ p.account = q.account ∧ p.amount = q.amount ∧ p.price = q.price)
        cfg1.output.postings cfg2.output.postings →
      build_transaction record cfg1 = build_transaction record cfg2) :=
  ⟨fun pt1 pt2 data hf ha ham hp => build_posting_congr pt1 pt2 data hf ha ham hp,
   fun record cfg1 cfg2 hin hset hdate hflag hpayee hnarr hpost =>
     build_transaction_congr record cfg1 cfg2 hin hset hdate hflag hpayee hnarr hpost⟩

/-- C7 witness: the templates `ptCostA` (no cost) and `ptCostB` (a cost
value), otherwise identical, build the same posting. -/
theorem c7_witness : build_posting ptCostA [] = build_posting ptCostB [] :=
  c7_cost_never_wired.1 ptCostA ptCostB [] rfl rfl rfl rfl

/-! ## C8: an empty payee rendering becomes an absent payee -/

/-- C8: when the configuration has a payee template and it renders to a
string `s`, a successfully built transaction has payee `none` if `s` is
empty (the `filter` of main.rs line 219) and payee `some s` otherwise —
never `some ""`. -/
theorem c8_empty_payee_absent (record : List String) (config : Configuration)
    (data : List (String × String)) (tpl s : String) (t : Transaction)
    (hctx : buildRowContext config.input record = some data)
    (htpl : config.output.payee = some tpl)
    (hrender : renderTemplate tpl data = Except.ok s)
    (hok : build_transaction record config = some (Except.ok t)) :
    (s = "" → t.payee = none) ∧ (s ≠ "" → t.payee = some s) := by
  have hp : renderedPayee config data = Except.ok (if s = "" then none else some s) := by
    unfold renderedPayee
    simp only [htpl, hrender, liftTemplate]
  unfold build_transaction at hok
  simp only [hctx, Option.some.injEq] at hok
  cases hd : renderedDate config data with
  | error e => simp only [hd] at hok; exact Except.noConfusion hok
  | ok d =>
    simp only [hd, hp] at hok
    cases hf : renderedFlag config data with
    | error e => simp only [hf] at hok; exact Except.noConfusion hok
    | ok fl =>
      simp only [hf] at hok
      cases hn : renderedNarration config data with
      | error e => simp only [hn] at hok; exact Except.noConfusion hok
      | ok nr =>
        simp only [hn] at hok
        cases hps : buildPostings config.output.postings data with
        | error e => simp only [hps] at hok; exact Except.noConfusion hok
        | ok ps =>
          simp only [hps] at hok
          obtain rfl := Except.ok.inj hok
          constructor
          · intro hs
            simp [hs]
          · intro hs
            simp [hs]

/-- C8 witness: under `cfgC8` the row `[""]` makes the payee template
render to the empty string, and the built transaction `tC8` has no
payee. -/
theorem c8_witness :
    build_transaction [""] cfgC8 = some (Except.ok tC8) ∧ tC8.payee = none :=
  ⟨rfl,
   (c8_empty_payee_absent [""] cfgC8 [("p", "")] "\x7b\x7bp\x7d\x7d" "" tC8
     rfl rfl rfl rfl).1 rfl⟩

/-! ## C6: first error short-circuits; the ok case is fully formed -/

/-- A successful postings build has exactly one posting per template. -/
lemma buildPostings_ok_length (pts : List YamlPosting) (data : List (String × String))
    (ps : List Posting) (h : buildPostings pts data = Except.ok ps) :
    ps.length = pts.length := by
  induction pts generalizing ps with
  | nil =>
    unfold buildPostings at h
    obtain rfl := Except.ok.inj h
    rfl
  | cons pt rest ih =>
    unfold buildPostings at h
    cases h1 : build_posting pt data with
    | error e => simp only [h1] at h; exact Except.noConfusion h
    | ok p =>
      simp only [h1] at h
      cases h2 : buildPostings rest data with
      | error e => simp only [h2] at h; exact Except.noConfusion h
      | ok ps2 =>
        simp only [h2] at h
        obtain rfl := Except.ok.inj h
        simp [ih ps2 h2]

/-- When every template before `pt` builds and `pt` fails with `e`, the
whole postings build stops at `pt` and returns `e` — the templates after
`pt` are never consulted (they do not appear in the conclusion at all). -/
lemma buildPostings_first_error (data : List (String × String))
    (pre : List YamlPosting) (pt : YamlPosting) (post : List YamlPosting)
    (e : TransactionError)
    (hpre : ∀ p ∈ pre, ∃ q, build_posting p data = Except.ok q)
    (herr : build_posting pt data = Except.error e) :
    buildPostings (pre ++ pt :: post) data = Except.error e := by
  induction pre with
  | nil =>
    unfold buildPostings
    simp only [List.nil_append, herr]
  | cons q rest ih =>
    obtain ⟨r, hr⟩ := hpre q (by simp)
    have ihr := ih (fun p hp => hpre p (by simp [hp]))
    rw [List.cons_append]
    unfold buildPostings
    simp only [hr, ihr]

/-- C6: `build_transaction` yields one fully-formed transaction or the
first error, never a partial transaction.  Conjunct 1: a successful build
implies every configured posting was built (the transaction carries exactly
one posting per template).  Conjunct 2: a date failure is returned as the
transaction's result no matter what the later steps would do.  Conjunct 3:
when every step before the postings succeeds, the postings preceding the
first failing template succeed and that template fails with `e`, the
result is exactly `e` — the remaining steps are short-circuited and no
postings or transaction are produced (an `Except.error` carries nothing
else). -/
theorem c6_first_error_short_circuits (record : List String) (config : Configuration) :
    (∀ t, build_transaction record config = some (Except.ok t) →
        ∃ data, buildRowContext config.input record = some data ∧
          buildPostings config.output.postings data = Except.ok t.postings ∧
          t.postings.length = config.output.postings.length)
    ∧ (∀ data e, buildRowContext config.input record = some data →
        renderedDate config data = Except.error e →
        build_transaction record config = some (Except.error e))
    ∧ (∀ data d py fl nr pre pt post e,
        buildRowContext config.input record = some data →
        renderedDate config data = Except.ok d →
        renderedPayee config data = Except.ok py →
        renderedFlag config data = Except.ok fl →
        renderedNarration config data = Except.ok nr →
        config.output.postings = pre ++ pt :: post →
        (∀ p ∈ pre, ∃ q, build_posting p data = Except.ok q) →
        build_posting pt data = Except.error e →
        build_transaction record config = some (Except.error e)) := by
  refine ⟨?_, ?_, ?_⟩
  · intro t ht
    unfold build_transaction at ht
    cases hctx : buildRowContext config.input record with
    | none => rw [hctx] at ht; exact Option.noConfusion ht
    | some data =>
      refine ⟨data, rfl, ?_⟩
      simp only [hctx, Option.some.injEq] at ht
      cases hd : renderedDate config data with
      | error e => simp only [hd] at ht; exact Except.noConfusion ht
      | ok d =>
        simp only [hd] at ht
        cases hp : renderedPayee config data with
        | error e => simp only [hp] at ht; exact Except.noConfusion ht
        | ok py =>
          simp only [hp] at ht
          cases hf : renderedFlag config data with
          | error e => simp only [hf] at ht; exact Except.noConfusion ht
          | ok fl =>
            simp only [hf] at ht
            cases hn : renderedNarration config data with
            | error e => simp only [hn] at ht; exact Except.noConfusion ht
            | ok nr =>
              simp only [hn] at ht
              cases hps : buildPostings config.output.postings data with
              | error e => simp only [hps] at ht; exact Except.noConfusion ht
              | ok ps =>
                simp only [hps] at ht
                obtain rfl := Except.ok.inj ht
                exact ⟨rfl, buildPostings_ok_length _ data ps hps⟩
  · intro data e hctx hd
    unfold build_transaction
    simp only [hctx, hd]
  · intro data d py fl nr pre pt post e hctx hd hp hf hn hsplit hpre herr
    unfold build_transaction
    simp only [hctx, hd, hp, hf, hn, hsplit,
      buildPostings_first_error data pre pt post e hpre herr]

/-- C6 witness: under `cfgC6` (whose single posting template has the
invalid account `Foo` and an amount template that would also fail), the
build of the empty row returns exactly `InvalidAccount` — the account
failure short-circuits the amount step and no transaction is produced. -/
theorem c6_witness :
    build_transaction [] cfgC6 = some (Except.error TransactionError.invalidAccount) :=
  (c6_first_error_short_circuits [] cfgC6).2.2 []
    { year := 2023, month := 1, day := 15 } none Flag.warning "n"
    [] ptC6 [] TransactionError.invalidAccount
    rfl rfl rfl rfl rfl rfl (fun p hp => absurd hp (List.not_mem_nil p)) rfl

/-! ## C1: missing names render as empty, only malformed syntax errors -/

/-- Inside a placeholder, a character that cannot close it is accumulated. -/
lemma renderGo_some_step (ctx : List (String × String)) (acc : List Char)
    (c : Char) (l : List Char) (hc : c ≠ '}') :
    renderGo ctx (some acc) (c :: l) = renderGo ctx (some (acc ++ [c])) l := by
  conv_lhs => rw [renderGo.eq_def]
  split <;> simp_all

/-- A placeholder that is never closed is a template syntax error. -/
lemma renderGo_no_close (ctx : List (String × String)) (acc l : List Char)
    (h : ∀ c ∈ l, c ≠ '}') :
    renderGo ctx (some acc) l = Except.error TemplateError.malformed := by
  induction l generalizing acc with
  | nil => rfl
  | cons c rest ih =>
    rw [renderGo_some_step ctx acc c rest (h c (by simp))]
    exact ih _ (fun d hd => h d (by simp [hd]))

/-- The whole placeholder content up to the closing braces is accumulated. -/
lemma renderGo_var (ctx : List (String × String)) (acc nm : List Char)
    (rest : List Char) (hnm : ∀ c ∈ nm, c ≠ '}') :
    renderGo ctx (some acc) (nm ++ '}' :: '}' :: rest) =
      renderGo ctx (some (acc ++ nm)) ('}' :: '}' :: rest) := by
  induction nm generalizing acc with
  | nil => simp
  | cons c nm2 ih =>
    rw [List.cons_append, renderGo_some_step ctx acc c _ (hnm c (by simp)),
      ih (acc ++ [c]) (fun d hd => hnm d (by simp [hd]))]
    simp

/-- Trimming placeholder content free of whitespace changes nothing. -/
lemma trimChars_id (l : List Char) (h : ∀ c ∈ l, isTemplateWs c = false) :
    trimChars l = l := by
  unfold trimChars
  have h1 : l.dropWhile isTemplateWs = l := by
    cases l with
    | nil => rfl
    | cons c t =>
      rw [List.dropWhile_cons, h c (by simp)]
      simp
  rw [h1]
  have h2 : l.reverse.dropWhile isTemplateWs = l.reverse := by
    cases hr : l.reverse with
    | nil => rfl
    | cons c t =>
      have hcin : c ∈ l := by
        rw [show c ∈ l ↔ c ∈ l.reverse from (List.mem_reverse).symm, hr]
        simp
      rw [List.dropWhile_cons, h c hcin]
      simp
  rw [h2, List.reverse_reverse]

/-- C1 counterexample: the template referencing the name `missing`, absent
from the (nonempty) context, renders SUCCESSFULLY to the empty string —
contrary to the claim, a missing name is not a `TemplateError`: the
non-strict handlebars engine of main.rs substitutes the empty string. -/
theorem c1_counterexample :
    renderTemplate "\x7b\x7bmissing\x7d\x7d" [("present", "v")] = Except.ok "" := rfl

/-- C1 amended: for every context and every plain placeholder name (chars
that neither close a placeholder nor are whitespace) that is not bound in
the context, the template consisting of that one placeholder renders to
the empty string (no error), while the template whose placeholder is never
closed — malformed syntax — fails with the template error that
`build_transaction` wraps as `HandleBarError`. -/
theorem c1_missing_name_empty_malformed_errors (ctx : List (String × String))
    (name : String)
    (hne : name ≠ "")
    (hchars : ∀ c ∈ name.data, c ≠ '}' ∧ isTemplateWs c = false)
    (hmiss : ctx.lookup name = none) :
    renderTemplate ("\x7b\x7b" ++ name ++ "\x7d\x7d") ctx = Except.ok ""
    ∧ renderTemplate ("\x7b\x7b" ++ name) ctx = Except.error TemplateError.malformed := by
  have hdata1 : ("\x7b\x7b" ++ name ++ "\x7d\x7d").data
      = '{' :: '{' :: (name.data ++ '}' :: '}' :: []) := by
    simp [String.data_append]
  have hdata2 : ("\x7b\x7b" ++ name).data = '{' :: '{' :: name.data := by
    simp [String.data_append]
  have htrim : trimChars name.data = name.data :=
    trimChars_id name.data (fun c hc => (hchars c hc).2)
  have hd : name.data.isEmpty = false := by
    cases hnd : name.data with
    | nil =>
      exact absurd (show name = "" from String.ext (by rw [hnd])) hne
    | cons _ _ => rfl
  have ha : name.data.any isTemplateWs = false := by
    rw [List.any_eq_false]
    intro c hc
    simp [(hchars c hc).2]
  constructor
  · unfold renderTemplate
    rw [hdata1]
    rw [show renderGo ctx none ('{' :: '{' :: (name.data ++ '}' :: '}' :: []))
        = renderGo ctx (some []) (name.data ++ '}' :: '}' :: []) from rfl]
    rw [renderGo_var ctx [] name.data [] (fun c hc => (hchars c hc).1)]
    rw [show renderGo ctx (some ([] ++ name.data)) ('}' :: '}' :: [])
        = renderGo ctx (some name.data) ('}' :: '}' :: []) by rw [List.nil_append]]
    conv_lhs => rw [renderGo.eq_def]
    simp only [htrim, hd, ha]
    rw [show String.mk name.data = name from rfl, hmiss]
    rfl
  · unfold renderTemplate
    rw [hdata2]
    rw [show renderGo ctx none ('{' :: '{' :: name.data)
        = renderGo ctx (some []) name.data from rfl]
    rw [renderGo_no_close ctx [] name.data (fun c hc => (hchars c hc).1)]
    rfl

/-- C1 witness: the amended theorem at the name `missing` and the empty
context. -/
theorem c1_witness :
    renderTemplate "\x7b\x7bmissing\x7d\x7d" ([] : List (String × String)) = Except.ok ""
    ∧ renderTemplate "\x7b\x7bmissing" ([] : List (String × String))
      = Except.error TemplateError.malformed :=
  c1_missing_name_empty_malformed_errors [] "missing" (by decide) (by decide) rfl
